import Mathlib

/-!
Shallow embedding of the nats01 control-plane client.

Source files embedded:
- `src/models/cmd.py` — pydantic message models (`CommandPayload`, `StartPayload`,
  `StopPayload`, `CommandMessage`, `ResponsePayload`, `ResponseMessage`).
- `src/clients/nats_client.py` — `NatsClient` (the Transport Adapter): connection
  state, `is_connected`, `send_command` with its exception-translation chain.
- `src/services/send_cmd.py` — `ManagerService` (the Command Service):
  `_send_command`, `start`, `stop`, `status`.
- `src/main.py` — `start_multiple_tasks` (concurrent dispatch via
  `asyncio.gather(..., return_exceptions=True)`).
- `src/core/config.py` — `AppConfig`.

Modelling conventions:
- Python floats are modelled as exact rationals (`Rat`); finite floats round-trip
  exactly through Python's JSON codec, and no claim depends on NaN/infinity.
- The JSON wire format is modelled at the JSON-value level (`Json` below); the
  byte-level codec (`json.dumps`/`json.loads`) is injective on these values.
- Async functions are modelled as pure state-passing functions; the outcome of the
  one effectful primitive (`self._nc.request`) is an explicit `RequestOutcome`
  argument.
- Exceptions are modelled by the inductive `PyExc`.  Python `except C` clauses are
  modelled by `catches…` predicates encoding the real class hierarchies:
  * `nats.errors.TimeoutError` is `class TimeoutError(asyncio.TimeoutError, Error)`;
    on every supported Python version an instance of the *builtin* `TimeoutError`
    (which `NatsClient.send_command` raises, nats_client.py:126) is NOT an instance
    of the strict subclass `nats.errors.TimeoutError` (which
    `ManagerService._send_command` catches, send_cmd.py:5).
  * the builtin `ConnectionError` (an `OSError`, raised by the client on
    no-responders / closed-connection / not-connected paths) is unrelated to
    `nats.errors.ConnectionClosedError` (a `nats.errors.Error`, i.e. a plain
    `Exception` subclass), so neither catches the other.
  * `json.JSONDecodeError` is a subclass of builtin `ValueError`.
- pydantic v2 semantics: a field annotated `Optional[X]` with no default is
  required; `Literal[...]` fields reject out-of-enumeration values with a
  `ValidationError`; pydantic aggregates all per-field errors into one
  `ValidationError` — the model reports the first in field-declaration order.
  Lax string-to-number coercions are not modelled (no claim depends on them).
-/

namespace Nats01

/-! ## Exception model -/

/-- Python exception values that occur in the embedded code.  Constructors named
`nats…` are classes from `nats.errors`; `builtin…` are Python builtins;
`validationError` is `pydantic.ValidationError`; `jsonDecodeError` is
`json.JSONDecodeError` (a `ValueError` subclass). -/
inductive PyExc where
  | natsConnectionClosedError (msg : String)
  | natsTimeoutError (msg : String)
  | natsNoRespondersError (msg : String)
  | builtinConnectionError (msg : String)
  | builtinTimeoutError (msg : String)
  | valueError (msg : String)
  | jsonDecodeError (msg : String)
  | validationError (msg : String)
  | attributeError (msg : String)
  | runtimeError (msg : String)
deriving Repr, DecidableEq

/-- `except nats.errors.ConnectionClosedError`: matches only that class (it has no
subclasses used here; the builtin `ConnectionError` is unrelated to it). -/
def catchesNatsConnectionClosed : PyExc → Bool
  | .natsConnectionClosedError _ => true
  | _ => false

/-- `except nats.errors.TimeoutError`: matches only that class.  The builtin
`TimeoutError` is a strict *superclass* (via `asyncio.TimeoutError`), so a builtin
`TimeoutError` instance is not matched. -/
def catchesNatsTimeout : PyExc → Bool
  | .natsTimeoutError _ => true
  | _ => false

/-- `except nats.errors.NoRespondersError`: matches only that class. -/
def catchesNoResponders : PyExc → Bool
  | .natsNoRespondersError _ => true
  | _ => false

/-- `except json.JSONDecodeError`: matches only that class (`ValueError` instances
that are not `JSONDecodeError` are not matched). -/
def catchesJsonDecode : PyExc → Bool
  | .jsonDecodeError _ => true
  | _ => false

/-! ## Message models (`src/models/cmd.py`) -/

/-- `CommandPayload`: all five fields `Optional` with default `None`. -/
structure CommandPayload where
  segment_time : Option Rat
  snd_source : Option String
  snd_byterate : Option Int
  vid_stream : Option String
  vid_byterate : Option Int
deriving Repr, DecidableEq

/-- `StartPayload(CommandPayload)`: overrides all five fields as required with
production defaults. -/
structure StartPayload where
  segment_time : Rat
  snd_source : String
  snd_byterate : Int
  vid_stream : String
  vid_byterate : Int
deriving Repr, DecidableEq

/-- `StartPayload()` with every field at its declared default. -/
def StartPayload.defaults : StartPayload :=
  ⟨300, "pulsesrc01", 96, "main", 2000⟩

/-- `CommandPayload(**start_payload.model_dump())` (send_cmd.py:96). -/
def StartPayload.toCommandPayload (p : StartPayload) : CommandPayload :=
  ⟨some p.segment_time, some p.snd_source, some p.snd_byterate,
   some p.vid_stream, some p.vid_byterate⟩

/-- `StopPayload(CommandPayload)`: overrides `segment_time` as required with
default 300.0 and inherits the other four optional fields. -/
structure StopPayload where
  segment_time : Rat
  snd_source : Option String
  snd_byterate : Option Int
  vid_stream : Option String
  vid_byterate : Option Int
deriving Repr, DecidableEq

/-- `StopPayload()` with every field at its declared default. -/
def StopPayload.defaults : StopPayload :=
  ⟨300, none, none, none, none⟩

/-- `CommandPayload(**stop_payload.model_dump())` (send_cmd.py:112). -/
def StopPayload.toCommandPayload (p : StopPayload) : CommandPayload :=
  ⟨some p.segment_time, p.snd_source, p.snd_byterate, p.vid_stream, p.vid_byterate⟩

/-- `cmd_type = Literal["start", "stop", "status"]`. -/
inductive cmd_type where
  | start
  | stop
  | status
deriving Repr, DecidableEq

/-- The wire string of each `cmd_type` literal. -/
def cmd_type.toWire : cmd_type → String
  | .start => "start"
  | .stop => "stop"
  | .status => "status"

/-- pydantic validation of a string against `Literal["start", "stop", "status"]`. -/
def cmd_type.parse (s : String) : Option cmd_type :=
  if s = "start" then some .start
  else if s = "stop" then some .stop
  else if s = "status" then some .status
  else none

/-- `CommandMessage`: `task_id: str`, `cmd: cmd_type`, `payload:
Optional[CommandPayload]` (no default, hence required). -/
structure CommandMessage where
  task_id : String
  cmd : cmd_type
  payload : Option CommandPayload
deriving Repr, DecidableEq

/-- `Literal["success", "error"]` for `ResponseMessage.msg_status`. -/
inductive MsgStatus where
  | success
  | error
deriving Repr, DecidableEq

/-- pydantic validation of a string against `Literal["success", "error"]`. -/
def MsgStatus.parse (s : String) : Option MsgStatus :=
  if s = "success" then some .success
  else if s = "error" then some .error
  else none

/-- `Literal["started", "stopped", "error"]` for `ResponseMessage.app_status`. -/
inductive AppStatus where
  | started
  | stopped
  | error
deriving Repr, DecidableEq

/-- pydantic validation of a string against `Literal["started", "stopped", "error"]`. -/
def AppStatus.parse (s : String) : Option AppStatus :=
  if s = "started" then some .started
  else if s = "stopped" then some .stopped
  else if s = "error" then some .error
  else none

/-- `ResponsePayload`: all four fields `Optional` with default `None`. -/
structure ResponsePayload where
  segment_time : Option Rat
  file_path : Option String
  at_started : Option String
  at_stopped : Option String
deriving Repr, DecidableEq

/-- `ResponseMessage`: `payload: Optional[ResponsePayload]` has no default, hence
required. -/
structure ResponseMessage where
  task_id : String
  msg_status : MsgStatus
  app_status : AppStatus
  payload : Option ResponsePayload
deriving Repr, DecidableEq

/-! ## JSON wire format

`model_dump_json` / `json.loads` are modelled at the JSON-value level; numbers
are exact (`Rat`), which is faithful for the finite floats and integers the
models carry. -/

/-- A JSON value as produced by `model_dump_json` and consumed by `json.loads`. -/
inductive Json where
  | null
  | str (s : String)
  | num (q : Rat)
  | obj (fields : List (String × Json))

/-- Key lookup in a JSON object (`data["key"]` / dict membership). -/
def Json.lookup (j : Json) (key : String) : Option Json :=
  match j with
  | .obj fs => fs.lookup key
  | _ => none

/-- Serialize an optional float field (`None` dumps as `null`). -/
def jsonOfOptRat : Option Rat → Json
  | none => .null
  | some q => .num q

/-- Serialize an optional int field (`None` dumps as `null`). -/
def jsonOfOptInt : Option Int → Json
  | none => .null
  | some n => .num (n : Rat)

/-- Serialize an optional string field (`None` dumps as `null`). -/
def jsonOfOptStr : Option String → Json
  | none => .null
  | some s => .str s

/-- pydantic validation of an `Optional[float] = None` field from a JSON object
entry (`none` = key absent, so the default `None` applies). -/
def parseOptRat (v : Option Json) : Except PyExc (Option Rat) :=
  match v with
  | none => .ok none
  | some .null => .ok none
  | some (.num q) => .ok (some q)
  | some _ => .error (.validationError "Input should be a valid number")

/-- pydantic validation of an `Optional[int] = None` field: a JSON number is
accepted exactly when it is integral. -/
def parseOptInt (v : Option Json) : Except PyExc (Option Int) :=
  match v with
  | none => .ok none
  | some .null => .ok none
  | some (.num q) =>
      if q.den = 1 then .ok (some q.num)
      else .error (.validationError "Input should be a valid integer")
  | some _ => .error (.validationError "Input should be a valid integer")

/-- pydantic validation of an `Optional[str] = None` field (numbers are not
coerced to strings). -/
def parseOptStr (v : Option Json) : Except PyExc (Option String) :=
  match v with
  | none => .ok none
  | some .null => .ok none
  | some (.str s) => .ok (some s)
  | some _ => .error (.validationError "Input should be a valid string")

/-- pydantic validation of a required `str` field. -/
def parseReqStr (v : Option Json) : Except PyExc String :=
  match v with
  | some (.str s) => .ok s
  | some _ => .error (.validationError "Input should be a valid string")
  | none => .error (.validationError "Field required")

/-- `CommandPayload.model_dump_json` as a JSON value. -/
def CommandPayload.toJson (p : CommandPayload) : Json :=
  .obj [("segment_time", jsonOfOptRat p.segment_time),
        ("snd_source", jsonOfOptStr p.snd_source),
        ("snd_byterate", jsonOfOptInt p.snd_byterate),
        ("vid_stream", jsonOfOptStr p.vid_stream),
        ("vid_byterate", jsonOfOptInt p.vid_byterate)]

/-- `CommandPayload(**data)` from a decoded JSON value. -/
def CommandPayload.fromJson (j : Json) : Except PyExc CommandPayload :=
  match j with
  | .obj _ => do
      let st ← parseOptRat (j.lookup "segment_time")
      let ss ← parseOptStr (j.lookup "snd_source")
      let sb ← parseOptInt (j.lookup "snd_byterate")
      let vs ← parseOptStr (j.lookup "vid_stream")
      let vb ← parseOptInt (j.lookup "vid_byterate")
      return ⟨st, ss, sb, vs, vb⟩
  | _ => .error (.validationError "Input should be an object")

/-- `CommandMessage.model_dump_json` as a JSON value (nats_client.py:97): exactly
the fields `task_id`, `cmd`, `payload`. -/
def CommandMessage.toJson (m : CommandMessage) : Json :=
  .obj [("task_id", .str m.task_id),
        ("cmd", .str m.cmd.toWire),
        ("payload", match m.payload with
          | none => Json.null
          | some p => p.toJson)]

/-- pydantic validation of the required `cmd: cmd_type` field. -/
def parseCmdField (v : Option Json) : Except PyExc cmd_type :=
  match v with
  | some (.str s) =>
      match cmd_type.parse s with
      | some c => .ok c
      | none => .error (.validationError "Input should be start, stop or status")
  | some _ => .error (.validationError "Input should be start, stop or status")
  | none => .error (.validationError "Field required")

/-- pydantic validation of the required `payload: Optional[CommandPayload]`
field: the key must be present; `null` is the explicit `None`. -/
def parseCmdPayloadField (v : Option Json) : Except PyExc (Option CommandPayload) :=
  match v with
  | some .null => .ok none
  | some j => (CommandPayload.fromJson j).map some
  | none => .error (.validationError "Field required")

/-- `CommandMessage(**data)` from a decoded JSON value. -/
def CommandMessage.fromJson (j : Json) : Except PyExc CommandMessage :=
  match j with
  | .obj _ => do
      let tid ← parseReqStr (j.lookup "task_id")
      let c ← parseCmdField (j.lookup "cmd")
      let p ← parseCmdPayloadField (j.lookup "payload")
      return ⟨tid, c, p⟩
  | _ => .error (.validationError "Input should be an object")

/-- `ResponsePayload(**data)` from a decoded JSON value. -/
def ResponsePayload.fromJson (j : Json) : Except PyExc ResponsePayload :=
  match j with
  | .obj _ => do
      let st ← parseOptRat (j.lookup "segment_time")
      let fp ← parseOptStr (j.lookup "file_path")
      let ast ← parseOptStr (j.lookup "at_started")
      let asp ← parseOptStr (j.lookup "at_stopped")
      return ⟨st, fp, ast, asp⟩
  | _ => .error (.validationError "Input should be an object")

/-- pydantic validation of the required `msg_status` literal field. -/
def parseMsgStatusField (v : Option Json) : Except PyExc MsgStatus :=
  match v with
  | some (.str s) =>
      match MsgStatus.parse s with
      | some ms => .ok ms
      | none => .error (.validationError "Input should be success or error")
  | some _ => .error (.validationError "Input should be success or error")
  | none => .error (.validationError "Field required")

/-- pydantic validation of the required `app_status` literal field. -/
def parseAppStatusField (v : Option Json) : Except PyExc AppStatus :=
  match v with
  | some (.str s) =>
      match AppStatus.parse s with
      | some a => .ok a
      | none => .error (.validationError "Input should be started, stopped or error")
  | some _ => .error (.validationError "Input should be started, stopped or error")
  | none => .error (.validationError "Field required")

/-- pydantic validation of the required `payload: Optional[ResponsePayload]`
field of a reply. -/
def parseRespPayloadField (v : Option Json) : Except PyExc (Option ResponsePayload) :=
  match v with
  | some .null => .ok none
  | some j => (ResponsePayload.fromJson j).map some
  | none => .error (.validationError "Field required")

/-- `ResponseMessage(**data)` from a decoded JSON value (nats_client.py:106). -/
def ResponseMessage.fromJson (j : Json) : Except PyExc ResponseMessage :=
  match j with
  | .obj _ => do
      let tid ← parseReqStr (j.lookup "task_id")
      let ms ← parseMsgStatusField (j.lookup "msg_status")
      let a ← parseAppStatusField (j.lookup "app_status")
      let p ← parseRespPayloadField (j.lookup "payload")
      return ⟨tid, ms, a, p⟩
  | _ => .error (.validationError "Input should be an object")

/-! ## pydantic construction from Python keyword arguments

`CommandMessage(task_id=…, cmd=…, payload=…)` in Python code.  An outer `none`
means the keyword argument was not supplied at all; `some none` means
`payload=None` was passed explicitly. -/

/-- The keyword arguments of a `CommandMessage(...)` call. -/
structure CommandMessageKwargs where
  task_id : Option String
  cmd : Option String
  payload : Option (Option CommandPayload)

/-- pydantic validation performed by `CommandMessage(...)`.  pydantic aggregates
all per-field errors into a single `ValidationError`; the model reports the
first in field-declaration order (missing fields before enum mismatches). -/
def CommandMessage.validate (kw : CommandMessageKwargs) : Except PyExc CommandMessage :=
  match kw.task_id with
  | none => .error (.validationError "Field required: task_id")
  | some tid =>
    match kw.cmd with
    | none => .error (.validationError "Field required: cmd")
    | some c =>
      match kw.payload with
      | none => .error (.validationError "Field required: payload")
      | some p =>
        match cmd_type.parse c with
        | none => .error (.validationError "Input should be start, stop or status")
        | some ct => .ok ⟨tid, ct, p⟩

/-- The keyword arguments of a `ResponseMessage(...)` call. -/
structure ResponseMessageKwargs where
  task_id : Option String
  msg_status : Option String
  app_status : Option String
  payload : Option (Option ResponsePayload)

/-- pydantic validation performed by `ResponseMessage(...)`. -/
def ResponseMessage.validate (kw : ResponseMessageKwargs) : Except PyExc ResponseMessage :=
  match kw.task_id with
  | none => .error (.validationError "Field required: task_id")
  | some tid =>
    match kw.msg_status with
    | none => .error (.validationError "Field required: msg_status")
    | some ms =>
      match kw.app_status with
      | none => .error (.validationError "Field required: app_status")
      | some a =>
        match kw.payload with
        | none => .error (.validationError "Field required: payload")
        | some p =>
          match MsgStatus.parse ms with
          | none => .error (.validationError "Input should be success or error")
          | some msv =>
            match AppStatus.parse a with
            | none => .error (.validationError "Input should be started, stopped or error")
            | some av => .ok ⟨tid, msv, av, p⟩

/-! ## Transport Adapter (`src/clients/nats_client.py`) -/

/-- The mutable state of a `NatsClient` instance: `self.nats_url`,
`self.timeout`, whether `self._nc` holds a client object, and
`self._connected`. -/
structure NatsClient where
  nats_url : String
  timeout : Nat
  nc : Bool
  connected : Bool
deriving Repr, DecidableEq

/-- `NatsClient.__init__`: no connection yet. -/
def NatsClient.init (url : String) (timeout : Nat) : NatsClient :=
  ⟨url, timeout, false, false⟩

/-- `NatsClient.is_connected` (nats_client.py:69-72):
`self._connected and self._nc is not None`. -/
def NatsClient.is_connected (c : NatsClient) : Bool :=
  c.connected && c.nc

/-- What the one effectful primitive `await self._nc.request(...)`
(nats_client.py:101) does on a given call: deliver reply bytes that decode as
`data` (`reply`), deliver bytes that are not valid JSON (`replyBadJson`, so
`json.loads` raises `json.JSONDecodeError`), or raise an exception
(`raises`). -/
inductive RequestOutcome where
  | reply (data : Json)
  | replyBadJson (msg : String)
  | raises (e : PyExc)

/-- The result of one `NatsClient.send_command` call: the client state after the
call, whether `self._nc.request` was actually invoked, and the returned reply or
raised exception. -/
structure SendResult where
  client : NatsClient
  attempted : Bool
  result : Except PyExc ResponseMessage

/-- `NatsClient.send_command(subject, command)` (nats_client.py:74-139).
Guard: not connected → raise builtin `ConnectionError` without issuing the
request.  Otherwise serialize, issue the request, deserialize; the except chain
translates `NoRespondersError` → builtin `ConnectionError`, nats
`TimeoutError` → builtin `TimeoutError`, nats `ConnectionClosedError` →
`self._connected = False` then builtin `ConnectionError`, `json.JSONDecodeError`
→ builtin `ValueError`, and re-raises anything else (including the pydantic
`ValidationError` from a reply that fails schema validation). -/
def NatsClient.send_command (c : NatsClient) (outcome : RequestOutcome)
    (subject : String) (command : CommandMessage) : SendResult :=
  if c.is_connected = false then
    ⟨c, false, .error (.builtinConnectionError "Not connected to NATS server")⟩
  else
    match outcome with
    | .reply data =>
        match ResponseMessage.fromJson data with
        | .ok reply => ⟨c, true, .ok reply⟩
        | .error e => ⟨c, true, .error e⟩
    | .replyBadJson m =>
        ⟨c, true, .error (.valueError ("Could not parse response: " ++ m))⟩
    | .raises e =>
        if catchesNoResponders e then
          ⟨c, true, .error (.builtinConnectionError
            ("No responders available for request on " ++ subject))⟩
        else if catchesNatsTimeout e then
          ⟨c, true, .error (.builtinTimeoutError
            ("Request timeout after " ++ toString c.timeout ++ "s for " ++ subject))⟩
        else if catchesNatsConnectionClosed e then
          ⟨{ c with connected := false }, true,
            .error (.builtinConnectionError "NATS connection was closed")⟩
        else if catchesJsonDecode e then
          ⟨c, true, .error (.valueError "Could not parse response")⟩
        else
          ⟨c, true, .error e⟩

/-! ## Configuration (`src/core/config.py`) -/

/-- `AppConfig` with its declared defaults (environment-overridable). -/
structure AppConfig where
  DEBUG : Bool
  TASK_ID : String
  LOG_LEVEL : String
deriving Repr, DecidableEq

/-- The declared default values of `AppConfig`. -/
def AppConfig.defaults : AppConfig :=
  ⟨true, "task01", "INFO"⟩

/-! ## Command Service (`src/services/send_cmd.py`) -/

/-- `ManagerService.__init__` fields other than the injected client. -/
structure ManagerService where
  config : AppConfig
  subject : String
deriving Repr, DecidableEq

/-- Lines 38-40 of send_cmd.py:
`effective_task_id = task_id or self._config.TASK_ID` — Python `or` takes the
right operand when `task_id` is falsy, i.e. `None` or the empty string.  A
whitespace-only string is truthy and is kept. -/
def effectiveTaskId (config_task_id : String) (task_id : Option String) : String :=
  match task_id with
  | none => config_task_id
  | some s => if s = "" then config_task_id else s

/-- Lines 38-40 of send_cmd.py including the guard:
`if not effective_task_id: raise ValueError(...)`. -/
def resolveTaskId (config_task_id : String) (task_id : Option String) :
    Except PyExc String :=
  let eff := effectiveTaskId config_task_id task_id
  if eff = "" then
    .error (.valueError "Task ID must be provided or set in the config.")
  else
    .ok eff

/-- The result of one `ManagerService` operation: the client state after the
call and the returned `ResponseMessage` or raised exception. -/
structure ServiceResult where
  client : NatsClient
  result : Except PyExc ResponseMessage

/-- `ManagerService._send_command` (send_cmd.py:29-87).  Resolve the effective
task id (raising `ValueError` when it is empty), build the `CommandMessage`,
call the client, and translate failures:
`except nats.errors.ConnectionClosedError` and `except nats.errors.TimeoutError`
each synthesize `ResponseMessage(msg_status="error", app_status="error",
payload=None)`; the final `except Exception` synthesizes
`ResponseMessage(msg_status="success", app_status="error", payload=None)`. -/
def ManagerService.send_cmd (svc : ManagerService) (client : NatsClient)
    (outcome : RequestOutcome) (command_name : cmd_type)
    (task_id : Option String) (payload : Option CommandPayload) : ServiceResult :=
  match resolveTaskId svc.config.TASK_ID task_id with
  | .error e => ⟨client, .error e⟩
  | .ok eff =>
    let cmd : CommandMessage := ⟨eff, command_name, payload⟩
    let sr := client.send_command outcome svc.subject cmd
    match sr.result with
    | .ok response => ⟨sr.client, .ok response⟩
    | .error e =>
      if catchesNatsConnectionClosed e then
        ⟨sr.client, .ok ⟨eff, .error, .error, none⟩⟩
      else if catchesNatsTimeout e then
        ⟨sr.client, .ok ⟨eff, .error, .error, none⟩⟩
      else
        ⟨sr.client, .ok ⟨eff, .success, .error, none⟩⟩

/-- `ManagerService.start` (send_cmd.py:89-103): dispatch the command, then log
`f"... recording to {response.payload.file_path}"` — when `response.payload` is
`None` that attribute access raises `AttributeError`. -/
def ManagerService.start (svc : ManagerService) (client : NatsClient)
    (outcome : RequestOutcome) (payload : StartPayload)
    (task_id : Option String) : ServiceResult :=
  let r := svc.send_cmd client outcome .start task_id (some payload.toCommandPayload)
  match r.result with
  | .error e => ⟨r.client, .error e⟩
  | .ok response =>
    match response.payload with
    | none => ⟨r.client,
        .error (.attributeError "NoneType object has no attribute file_path")⟩
    | some _ => ⟨r.client, .ok response⟩

/-- `ManagerService.stop` (send_cmd.py:105-119): dispatch the command, then log
`f"... stopped at {response.payload.at_stopped}"` — when `response.payload` is
`None` that attribute access raises `AttributeError`. -/
def ManagerService.stop (svc : ManagerService) (client : NatsClient)
    (outcome : RequestOutcome) (payload : StopPayload)
    (task_id : Option String) : ServiceResult :=
  let r := svc.send_cmd client outcome .stop task_id (some payload.toCommandPayload)
  match r.result with
  | .error e => ⟨r.client, .error e⟩
  | .ok response =>
    match response.payload with
    | none => ⟨r.client,
        .error (.attributeError "NoneType object has no attribute at_stopped")⟩
    | some _ => ⟨r.client, .ok response⟩

/-- `ManagerService.status` (send_cmd.py:121-127): dispatch with
`payload=None`; its log line reads only `response.task_id` and
`response.app_status`, which always exist. -/
def ManagerService.status (svc : ManagerService) (client : NatsClient)
    (outcome : RequestOutcome) (task_id : Option String) : ServiceResult :=
  svc.send_cmd client outcome .status task_id none

/-! ## Concurrent dispatch (`src/main.py`, `start_multiple_tasks`) -/

/-- The hard-coded task list of `start_multiple_tasks` (main.py:95). -/
def multiTaskIds : List String :=
  ["rec_task_A", "rec_task_B", "rec_task_C"]

/-- `StartPayload(segment_time=120.0, vid_byterate=2500)` (main.py:99): the
other three fields keep their declared defaults. -/
def multiTaskPayload : StartPayload :=
  ⟨120, "pulsesrc01", 96, "main", 2500⟩

/-- `start_multiple_tasks` (main.py:76-121): one `service.start` coroutine per
task id, collected by `asyncio.gather(*commands, return_exceptions=True)`, which
returns one outcome per coroutine in task-list order — a returned value or the
exception the coroutine raised.  Each dispatch is evaluated against the shared
client state at gather time and against its own transport outcome
(`outcomeFor task_id`); this is exact whenever no dispatch mutates the
connection state (e.g. for timeouts and ordinary replies). -/
def start_multiple_tasks (svc : ManagerService) (client : NatsClient)
    (outcomeFor : String → RequestOutcome) : List (Except PyExc ResponseMessage) :=
  multiTaskIds.map fun tid =>
    (svc.start client (outcomeFor tid) multiTaskPayload (some tid)).result

/-! ## Concrete fixtures used by the theorems -/

/-- A `NatsClient` in the connected state (after a successful `connect()` with
the default URL and the configured `timeout=2`). -/
def connectedClient : NatsClient :=
  ⟨"nats://localhost:4222", 2, true, true⟩

/-- A `ManagerService` built from the default `AppConfig` and the configured
subject `rec.control`. -/
def svcDefault : ManagerService :=
  ⟨AppConfig.defaults, "rec.control"⟩

/-- The stub reply of the spec's end-to-end scenario:
`{task_id, msg_status: "success", app_status: "started",
payload: {file_path: "/mnt/rec001.wav", at_started: "2025-10-15T08:55:00Z"}}`. -/
def goodReply (tid : String) : Json :=
  .obj [("task_id", .str tid), ("msg_status", .str "success"),
        ("app_status", .str "started"),
        ("payload", .obj [("file_path", .str "/mnt/rec001.wav"),
                          ("at_started", .str "2025-10-15T08:55:00Z")])]

/-- The `ResponseMessage` that `goodReply tid` deserializes to. -/
def startedResponse (tid : String) : ResponseMessage :=
  ⟨tid, .success, .started,
   some ⟨none, some "/mnt/rec001.wav", some "2025-10-15T08:55:00Z", none⟩⟩

/-- Transport outcomes of the spec's concurrent-dispatch scenario: task B's
exchange times out (the NATS request raises `nats.errors.TimeoutError`), the
others receive a successful reply. -/
def scenarioOutcomes (tid : String) : RequestOutcome :=
  if tid = "rec_task_B" then .raises (.natsTimeoutError "nats: timeout")
  else .reply (goodReply tid)

/-! ## Claim theorems -/

/-- Claim C1 (code bug): the invariant "every caller-facing operation returns a
`ResponseMessage`, never an unhandled exception, for expected failure classes"
is the evident intent of `_send_command` (which synthesizes a `ResponseMessage`
for every caught exception), but `start()` and `stop()` break it: their
unconditional success-log line dereferences `response.payload` (send_cmd.py:100
and :116), which is `None` on every synthesized failure response, so an
`AttributeError` escapes to the caller.  Evaluated here on all three expected
failure classes: `start` under a timeout raises `AttributeError`, `stop` under a
connection drop raises `AttributeError`, and only `status` (whose log line
touches no payload) returns the synthesized `ResponseMessage`. -/
theorem start_stop_raise_on_expected_failures :
    ((svcDefault.start connectedClient (.raises (.natsTimeoutError "nats: timeout"))
        StartPayload.defaults (some "task01")).result
      = .error (.attributeError "NoneType object has no attribute file_path"))
    ∧ ((svcDefault.stop connectedClient
          (.raises (.natsConnectionClosedError "nats: connection closed"))
          StopPayload.defaults (some "task01")).result
      = .error (.attributeError "NoneType object has no attribute at_stopped"))
    ∧ ((svcDefault.status connectedClient
          (.raises (.natsNoRespondersError "no responders"))
          (some "task01")).result = .ok ⟨"task01", .success, .error, none⟩) :=
  ⟨rfl, rfl, rfl⟩

/-- Claim C2 (code bug): when the Transport Adapter's send fails with its
timeout failure, the synthesized `ResponseMessage` has `msg_status = success`,
not `error` as the claim states.  The adapter raises the *builtin*
`TimeoutError` (nats_client.py:126), which the service's dedicated
`except nats.errors.TimeoutError` branch (send_cmd.py:67, written exactly to
produce the claimed `(error, error)` response) can never match, because
`nats.errors.TimeoutError` is a strict subclass of the builtin; the failure
falls through to the blanket `except Exception`, which pairs
`msg_status="success"` with `app_status="error"`.  `task_id` does equal the
effective task id and the payload is absent; `start()` additionally raises
`AttributeError` from its success-log line instead of returning the response. -/
theorem timeout_synthesizes_success_error_pair :
    ((svcDefault.status connectedClient (.raises (.natsTimeoutError "nats: timeout"))
        (some "task01")).result = .ok ⟨"task01", .success, .error, none⟩)
    ∧ ((svcDefault.start connectedClient (.raises (.natsTimeoutError "nats: timeout"))
        StartPayload.defaults (some "task01")).result
      = .error (.attributeError "NoneType object has no attribute file_path")) :=
  ⟨rfl, rfl⟩

/-- Claim C3, counterexample: with the adapter raising `NoRespondersError` (no
remote listener), `start()` does not propagate that failure type: the adapter
converts it to a builtin `ConnectionError` (nats_client.py:117-122), the
service's blanket `except Exception` converts that into a generic synthesized
`ResponseMessage`, and what actually reaches the caller is an `AttributeError`
from the success-log line — not a `NoRespondersError`. -/
theorem no_responders_not_propagated_counterexample :
    (svcDefault.start connectedClient
        (.raises (.natsNoRespondersError "no responders available for request"))
        StartPayload.defaults (some "task01")).result
      = .error (.attributeError "NoneType object has no attribute file_path") :=
  rfl

/-- Claim C3, amended: when the Transport Adapter's send fails with
`NoRespondersError`, the adapter re-raises it as a builtin `ConnectionError`
and the Command Service's blanket handler converts that into a generic
synthesized `ResponseMessage(msg_status="success", app_status="error",
payload=None)`: `status()` returns that response to the caller, while `start()`
and `stop()` subsequently raise `AttributeError` from their success-log lines.
The `NoRespondersError` type itself never reaches the caller. -/
theorem no_responders_converted_to_generic_response (svc : ManagerService)
    (client : NatsClient) (h : client.is_connected = true) (m tid : String)
    (htid : tid ≠ "") :
    ((svc.send_cmd client (.raises (.natsNoRespondersError m)) .status
        (some tid) none).result = .ok ⟨tid, .success, .error, none⟩)
    ∧ (∀ p, (svc.start client (.raises (.natsNoRespondersError m)) p (some tid)).result
        = .error (.attributeError "NoneType object has no attribute file_path"))
    ∧ (∀ p, (svc.stop client (.raises (.natsNoRespondersError m)) p (some tid)).result
        = .error (.attributeError "NoneType object has no attribute at_stopped")) := by
  refine ⟨?_, ?_, ?_⟩ <;>
    simp [ManagerService.send_cmd, ManagerService.start, ManagerService.stop,
      resolveTaskId, effectiveTaskId, NatsClient.send_command, h, htid,
      catchesNoResponders, catchesNatsTimeout, catchesNatsConnectionClosed,
      catchesJsonDecode]

/-- Witness for the amended C3 theorem at a concrete input. -/
theorem no_responders_converted_witness :
    (svcDefault.send_cmd connectedClient
        (.raises (.natsNoRespondersError "no responders")) .status
        (some "task01") none).result = .ok ⟨"task01", .success, .error, none⟩ :=
  (no_responders_converted_to_generic_response svcDefault connectedClient
    (by decide) "no responders" "task01" (by decide)).1

/-- Claim C4 (code bug): for every failure raised during dispatch that is not
one of the two distinguished nats classes, the blanket `except Exception`
(send_cmd.py:79-87) synthesizes `msg_status="success"` paired with
`app_status="error"` — exactly the pairing the claim (and spec §9) says must
never occur; the claimed `(error, error)` pairing is produced by no reachable
path.  Stated for an arbitrary raised exception that is neither
`nats.errors.ConnectionClosedError` nor `nats.errors.TimeoutError`. -/
theorem nondistinguished_failure_success_error_pair (e : PyExc) (tid : String)
    (htid : tid ≠ "") (h1 : catchesNatsConnectionClosed e = false)
    (h2 : catchesNatsTimeout e = false) :
    (svcDefault.status connectedClient (.raises e) (some tid)).result
      = .ok ⟨tid, .success, .error, none⟩ := by
  cases e <;>
    simp_all [ManagerService.status, ManagerService.send_cmd, resolveTaskId,
      effectiveTaskId, NatsClient.send_command, NatsClient.is_connected,
      connectedClient, svcDefault, catchesNoResponders, catchesNatsTimeout,
      catchesNatsConnectionClosed, catchesJsonDecode]

/-- Witness for the C4 theorem at a concrete input (`RuntimeError("boom")`). -/
theorem nondistinguished_failure_witness :
    (svcDefault.status connectedClient (.raises (.runtimeError "boom"))
        (some "task01")).result = .ok ⟨"task01", .success, .error, none⟩ :=
  nondistinguished_failure_success_error_pair (.runtimeError "boom") "task01"
    (by decide) (by decide) (by decide)

/-- Claim C5, counterexample: a whitespace-only explicit task id is truthy in
Python, so `task_id or self._config.TASK_ID` keeps it and the emptiness guard
does not fire: `" "` is accepted as the effective task id (no `ValueError`),
and the dispatch proceeds and returns a reply for task `" "` — contradicting
"an empty or blank explicit task id is never accepted as valid". -/
theorem blank_task_id_accepted_counterexample :
    resolveTaskId "task01" (some " ") = .ok " "
    ∧ (svcDefault.status connectedClient (.reply (goodReply " "))
        (some " ")).result = .ok (startedResponse " ") :=
  ⟨rfl, rfl⟩

/-- Claim C5, amended: the effective task id is the explicit argument when it
is a non-empty string (including a whitespace-only one, which is accepted),
otherwise the configured default; `ValueError` is raised if and only if the
effective task id is empty, i.e. exactly when the explicit argument is absent
or empty and the configured default is empty. -/
theorem task_id_resolution_amended (config_task_id : String)
    (task_id : Option String) :
    (resolveTaskId config_task_id task_id
        = .error (.valueError "Task ID must be provided or set in the config.")
      ↔ effectiveTaskId config_task_id task_id = "")
    ∧ (effectiveTaskId config_task_id task_id = ""
      ↔ ((task_id = none ∨ task_id = some "") ∧ config_task_id = ""))
    ∧ (∀ s : String, s ≠ "" → resolveTaskId config_task_id (some s) = .ok s) := by
  refine ⟨?_, ?_, ?_⟩
  · by_cases he : effectiveTaskId config_task_id task_id = "" <;>
      simp [resolveTaskId, he]
  · unfold effectiveTaskId
    cases task_id with
    | none => simp
    | some s => by_cases hs : s = "" <;> simp [hs]
  · intro s hs
    simp [resolveTaskId, effectiveTaskId, hs]

/-- Witness for the amended C5 theorem at a concrete input. -/
theorem task_id_resolution_witness :
    resolveTaskId "task01" (some "custom_rec") = .ok "custom_rec" :=
  (task_id_resolution_amended "task01" (some "custom_rec")).2.2 "custom_rec"
    (by decide)

/-- Claim C6: constructing a `CommandMessage` succeeds for every non-empty
`task_id` exactly when `cmd` is one of start/stop/status, and fails with a
`ValidationError` for any other `cmd` string; and deserializing a reply whose
`app_status` (or `msg_status`) is outside its fixed enumeration fails with a
`ValidationError` instead of being coerced, whatever the other fields hold.
The non-emptiness hypothesis mirrors the claim's "for every non-empty task_id";
pydantic imposes no emptiness check on `task_id: str`, so the construction half
in fact holds without it. -/
theorem schema_validation_enums (tid : String) (htid : tid ≠ "")
    (p : Option CommandPayload) (c : String) :
    ((CommandMessage.validate ⟨some tid, some c, some p⟩).isOk = true
      ↔ (c = "start" ∨ c = "stop" ∨ c = "status"))
    ∧ (¬(c = "start" ∨ c = "stop" ∨ c = "status") →
        CommandMessage.validate ⟨some tid, some c, some p⟩
          = .error (.validationError "Input should be start, stop or status"))
    ∧ (∀ s : String, s ≠ "started" → s ≠ "stopped" → s ≠ "error" → ∀ d : Json,
        ResponseMessage.fromJson (.obj [("task_id", .str "task01"),
            ("msg_status", .str "success"), ("app_status", .str s), ("payload", d)])
          = .error (.validationError "Input should be started, stopped or error"))
    ∧ (∀ s : String, s ≠ "success" → s ≠ "error" → ∀ d : Json,
        ResponseMessage.fromJson (.obj [("task_id", .str "task01"),
            ("msg_status", .str s), ("app_status", .str "started"), ("payload", d)])
          = .error (.validationError "Input should be success or error")) := by
  refine ⟨?_, ?_, ?_, ?_⟩
  · simp only [CommandMessage.validate, cmd_type.parse]
    by_cases h1 : c = "start" <;> by_cases h2 : c = "stop" <;>
      by_cases h3 : c = "status" <;>
      simp [h1, h2, h3, Except.isOk, Except.toBool]
  · intro hc
    push_neg at hc
    obtain ⟨h1, h2, h3⟩ := hc
    simp [CommandMessage.validate, cmd_type.parse, h1, h2, h3]
  · intro s h1 h2 h3 d
    simp [ResponseMessage.fromJson, Json.lookup, List.lookup, parseReqStr,
      parseMsgStatusField, parseAppStatusField, MsgStatus.parse, AppStatus.parse,
      h1, h2, h3, Bind.bind, Except.bind]
  · intro s h1 h2 d
    simp [ResponseMessage.fromJson, Json.lookup, List.lookup, parseReqStr,
      parseMsgStatusField, MsgStatus.parse, h1, h2, Bind.bind, Except.bind]

/-- Witness for the C6 theorem at concrete inputs: a valid construction and a
rejected `app_status = "bogus"` reply. -/
theorem schema_validation_enums_witness :
    (CommandMessage.validate ⟨some "task01", some "start", some none⟩).isOk = true
    ∧ ResponseMessage.fromJson (.obj [("task_id", .str "task01"),
        ("msg_status", .str "success"), ("app_status", .str "bogus"),
        ("payload", .null)])
      = .error (.validationError "Input should be started, stopped or error") :=
  ⟨(schema_validation_enums "task01" (by decide) none "start").1.mpr
      (Or.inl rfl),
   (schema_validation_enums "task01" (by decide) none "start").2.2.1 "bogus"
      (by decide) (by decide) (by decide) .null⟩

/-- Round-trip of `CommandPayload` through its JSON dump: every field is
recovered exactly. -/
theorem CommandPayload.fromJson_toJson (p : CommandPayload) :
    CommandPayload.fromJson p.toJson = .ok p := by
  obtain ⟨st, ss, sb, vs, vb⟩ := p
  cases st <;> cases ss <;> cases sb <;> cases vs <;> cases vb <;> rfl

/-- Claim C7: serializing any representable `CommandMessage` to its wire format
(`model_dump_json`) and deserializing the result (`json.loads` followed by
pydantic validation) yields a value equal to the original in every field. -/
theorem command_roundtrip (m : CommandMessage) :
    CommandMessage.fromJson m.toJson = .ok m := by
  obtain ⟨tid, c, p⟩ := m
  cases c <;>
    (cases p with
     | none => rfl
     | some pl =>
         obtain ⟨st, ss, sb, vs, vb⟩ := pl
         cases st <;> cases ss <;> cases sb <;> cases vs <;> cases vb <;> rfl)

/-- Claim C8: when the connection drops mid-exchange (`ConnectionClosedError`
during `send_command`), the adapter raises a `ConnectionError` and marks itself
disconnected (`self._connected = False`, nats_client.py:130-133), so every
subsequent `send_command` call fails fast on the `is_connected` guard with a
`ConnectionError`, without attempting the request and without changing state. -/
theorem connection_drop_fail_fast (c : NatsClient) (h : c.is_connected = true)
    (subject m : String) (cmd : CommandMessage) :
    ((c.send_command (.raises (.natsConnectionClosedError m)) subject cmd).result
        = .error (.builtinConnectionError "NATS connection was closed"))
    ∧ ((c.send_command (.raises (.natsConnectionClosedError m))
          subject cmd).client.is_connected = false)
    ∧ (∀ (outcome : RequestOutcome) (subject2 : String) (cmd2 : CommandMessage),
        (((c.send_command (.raises (.natsConnectionClosedError m))
            subject cmd).client.send_command outcome subject2 cmd2).attempted
          = false)
        ∧ (((c.send_command (.raises (.natsConnectionClosedError m))
            subject cmd).client.send_command outcome subject2 cmd2).result
          = .error (.builtinConnectionError "Not connected to NATS server"))) := by
  rw [NatsClient.is_connected, Bool.and_eq_true] at h
  obtain ⟨hc, hn⟩ := h
  refine ⟨?_, ?_, ?_⟩ <;>
    simp [NatsClient.send_command, NatsClient.is_connected, hc, hn,
      catchesNoResponders, catchesNatsTimeout, catchesNatsConnectionClosed,
      catchesJsonDecode]

/-- Witness for the C8 theorem at a concrete input: after a mid-exchange drop,
the next call does not attempt the request even though its transport outcome
would be a good reply. -/
theorem connection_drop_fail_fast_witness :
    (((connectedClient.send_command
          (.raises (.natsConnectionClosedError "nats: connection closed"))
          "rec.control" ⟨"task01", .status, none⟩).client.send_command
        (.reply (goodReply "task01")) "rec.control"
        ⟨"task01", .status, none⟩).attempted = false) :=
  ((connection_drop_fail_fast connectedClient (by decide) "rec.control"
      "nats: connection closed" ⟨"task01", .status, none⟩).2.2
    (.reply (goodReply "task01")) "rec.control" ⟨"task01", .status, none⟩).1

/-- Claim C9: concurrent dispatch via
`asyncio.gather(*commands, return_exceptions=True)` yields one outcome per task
id in task-list order (no outcome dropped); the i-th outcome is exactly the
result of the i-th task's own dispatch, a function of that task's transport
outcome alone (independence); and in the spec's scenario — B's exchange timing
out — A and C still receive their successful started responses while B's
outcome is a surfaced failure (per claim C1's bug, the `AttributeError` raised
by `start()` after the timeout is normalized, rather than a `ResponseMessage`). -/
theorem concurrent_dispatch_isolation (svc : ManagerService)
    (client : NatsClient) (outcomeFor : String → RequestOutcome) :
    ((start_multiple_tasks svc client outcomeFor).length = multiTaskIds.length)
    ∧ (∀ i : Nat, (start_multiple_tasks svc client outcomeFor).get? i
        = (multiTaskIds.get? i).map fun tid =>
            (svc.start client (outcomeFor tid) multiTaskPayload (some tid)).result)
    ∧ (start_multiple_tasks svcDefault connectedClient scenarioOutcomes
        = [.ok (startedResponse "rec_task_A"),
           .error (.attributeError "NoneType object has no attribute file_path"),
           .ok (startedResponse "rec_task_C")]) := by
  refine ⟨?_, ?_, ?_⟩
  · simp [start_multiple_tasks]
  · intro i
    simp [start_multiple_tasks, List.get?_map]
  · rfl

/-- Claim C10: `payload` is annotated `Optional` but has no default in both
`CommandMessage` and `ResponseMessage`, so pydantic treats it as required:
construction without supplying `payload` fails with a `ValidationError` (even
for a `status` command), while passing `payload=None` explicitly succeeds. -/
theorem payload_field_required :
    (∀ tid c : String,
        CommandMessage.validate ⟨some tid, some c, none⟩
          = .error (.validationError "Field required: payload"))
    ∧ (∀ tid : String,
        CommandMessage.validate ⟨some tid, some "status", some none⟩
          = .ok ⟨tid, .status, none⟩)
    ∧ (∀ tid ms a : String,
        ResponseMessage.validate ⟨some tid, some ms, some a, none⟩
          = .error (.validationError "Field required: payload"))
    ∧ (∀ tid : String,
        ResponseMessage.validate ⟨some tid, some "success", some "started", some none⟩
          = .ok ⟨tid, .success, .started, none⟩) :=
  ⟨fun _ _ => rfl, fun _ => rfl, fun _ _ _ => rfl, fun _ => rfl⟩

end Nats01
